import Mathlib

/-!
Verification development for the AI-KNOWLEDGE-ASSISTANT repository.

The file shallowly embeds the two core modules:

* `src/main.py` — the four-agent query pipeline (retriever, researcher,
  writer, critic) threaded by a linear state graph; and
* `src/processor.py` — the document ingestor (`Processor.process_document`,
  `Processor.process_directory`).

External collaborators are passed in as function parameters: the inference
provider (`llm.invoke`, which may fail) becomes `Llm`, the vector index
search (`vectorstore.similarity_search`) becomes `Search`, and the
filesystem, document loaders and text splitter used by the processor become
an `FsEnv` record plus a `Splitter` function.
-/

namespace AIKA

/-- The inference provider: `llm.invoke(prompt)`; a raised exception is
modelled as `Except.error` carrying the message. -/
abbrev Llm := String → Except String String

/-- The index search: `vectorstore.similarity_search(query, k)` returning the
ranked passage texts, most relevant first. -/
abbrev Search := String → Nat → List String

/-- The mutable pipeline state dict of `main.py` (`AgentState` plus the keys
the agents add at run time: `query`, `analysis`, `draft`, `feedback`,
`final_response`).  Keys that may be absent are `Option`; `agent_outputs` is
an insertion-ordered dict. -/
structure AgentState where
  messages : List String
  current_step : String
  context : Option String
  query : Option String
  analysis : Option String
  draft : Option String
  feedback : Option String
  final_response : Option String
  research_summary : Option String
  final_answer : Option String
  agent_outputs : List (String × String)

/-- Python dict assignment `d[k] = v`: replace in place when the key exists,
append at the end otherwise (insertion order preserved). -/
def dictInsert (d : List (String × String)) (k v : String) : List (String × String) :=
  if d.any (fun p => p.1 == k) then
    d.map (fun p => if p.1 == k then (k, v) else p)
  else
    d ++ [(k, v)]

/-- The langgraph `END` sentinel. -/
def END_marker : String := "__end__"

/-- `main.py` lines 102–105 (also in the writer and critic): read
`state.get("query")`; when it is falsy (absent or empty) recompute it from
`messages[-1].content` and write it back.  Returns the updated state and the
query value used. -/
def fixQuery (st : AgentState) : AgentState × String :=
  let q0 := st.query.getD ""
  if q0 = "" then
    let q := st.messages.getLast?.getD ""
    ({ st with query := some q }, q)
  else
    (st, q0)

/-- The analysis prompt built by `researcher_agent`. -/
def analysisPrompt (query context : String) : String :=
  "Analyze this query and context, identifying key points and relationships:\n\nQuery: "
    ++ query ++ "\n\nContext: " ++ context

/-- The drafting prompt built by `writer_agent`. -/
def draftPrompt (query context analysis : String) : String :=
  "Draft a comprehensive response that addresses this query using the context and analysis:\n\nQuery: "
    ++ query ++ "\nContext: " ++ context ++ "\nAnalysis: " ++ analysis

/-- The review prompt built by `critic_agent` (first inference call). -/
def feedbackPrompt (query context analysis draft : String) : String :=
  "Review this draft response and provide specific feedback:\n        Query: "
    ++ query ++ "\n        Context: " ++ context ++ "\n        Analysis: "
    ++ analysis ++ "\n        Draft: " ++ draft
    ++ "\n        \n        Provide feedback on:\n        1. Accuracy and factual correctness\n        2. Completeness of response\n        3. Clarity and structure\n        4. Areas for improvement\n        "

/-- The finalization prompt built by `critic_agent` (second inference call). -/
def finalPrompt (query draft feedback : String) : String :=
  "Create a final polished response incorporating this feedback:\n        Original Query: "
    ++ query ++ "\n        Draft: " ++ draft ++ "\n        Feedback: " ++ feedback
    ++ "\n        \n        Requirements:\n        1. Address all feedback points\n        2. Maintain clear structure\n        3. Ensure completeness\n        4. Polish language and flow\n        "

/-- The rendered fragment of the retriever stage. -/
def retrieverFragment (n : Nat) (context : String) : String :=
  "<details open>\n<summary>### 📚 Retrieved Documents</summary>\n\nFound "
    ++ toString n
    ++ " relevant documents.\n\n<details>\n<summary>Document Content</summary>\n\n```\n"
    ++ context ++ "\n```\n\n</details>\n\n</details>\n"

/-- The rendered fragment of the researcher stage. -/
def researchFragment (analysis query : String) : String :=
  "<details open>\n<summary>### 🔍 Research Analysis</summary>\n\n" ++ analysis
    ++ "\n\n<details>\n<summary>Analysis Details</summary>\n\n- Query: " ++ query
    ++ "\n- Context Analysis: Present\n- Key Points Identified\n- Relationships Mapped\n\n</details>\n\n</details>\n"

/-- The rendered fragment of the writer stage. -/
def writerFragment (draft : String) : String :=
  "<details open>\n<summary>### ✍️ Initial Draft</summary>\n\n" ++ draft
    ++ "\n\n<details>\n<summary>Writing Process</summary>\n\n1. Analyzed query requirements\n2. Incorporated context\n3. Applied research insights\n4. Structured response\n\n</details>\n\n</details>\n"

/-- The rendered "critic" fragment of the critic stage. -/
def criticFragment (feedback : String) : String :=
  "<details open>\n<summary>### 🎯 Review & Refinement</summary>\n\n<details>\n<summary>Feedback Summary</summary>\n\n"
    ++ feedback
    ++ "\n\n</details>\n\n<details>\n<summary>Review Process</summary>\n\n- Evaluated accuracy and completeness\n- Assessed clarity and structure\n- Identified improvements\n- Refined content and flow\n\n</details>\n\n</details>\n"

/-- The rendered "response" fragment of the critic stage. -/
def responseFragment (final : String) : String :=
  "<details open>\n<summary>### 🎬 Final Response</summary>\n\n" ++ final
    ++ "\n\n---\n*Generated using multi-agent processing with context-aware analysis.*\n\n</details>\n"

/-- `retriever_agent` (`main.py` lines 50–95): take the query from
`messages[-1]`, search the index with `k = 3`, join the passage texts with a
blank line, record context, query and the rendered fragment, and hand off to
the researcher. -/
def retriever_agent (search : Search) (st : AgentState) : AgentState :=
  let query := st.messages.getLast?.getD ""
  let docs := search query 3
  let context := String.intercalate "\n\n" docs
  { st with
      current_step := "researcher"
      context := some context
      query := some query
      agent_outputs :=
        dictInsert st.agent_outputs "retriever" (retrieverFragment docs.length context) }

/-- `researcher_agent` (`main.py` lines 97–142): one inference call producing
the analysis; a provider failure propagates. -/
def researcher_agent (llm : Llm) (st0 : AgentState) : Except String AgentState :=
  let st := (fixQuery st0).1
  let query := (fixQuery st0).2
  let context := st.context.getD ""
  match llm (analysisPrompt query context) with
  | .error e => .error e
  | .ok analysis =>
      .ok { st with
              current_step := "writer"
              analysis := some analysis
              agent_outputs := dictInsert st.agent_outputs "research" (researchFragment analysis query) }

/-- `writer_agent` (`main.py` lines 144–190): one inference call producing
the draft. -/
def writer_agent (llm : Llm) (st0 : AgentState) : Except String AgentState :=
  let st := (fixQuery st0).1
  let query := (fixQuery st0).2
  let context := st.context.getD ""
  let analysis := st.analysis.getD ""
  match llm (draftPrompt query context analysis) with
  | .error e => .error e
  | .ok draft =>
      .ok { st with
              current_step := "critic"
              draft := some draft
              agent_outputs := dictInsert st.agent_outputs "writer" (writerFragment draft) }

/-- `critic_agent` (`main.py` lines 192–282): two sequential inference calls
(feedback, then finalization), two rendered fragments, hand off to `END`. -/
def critic_agent (llm : Llm) (st0 : AgentState) : Except String AgentState :=
  let st := (fixQuery st0).1
  let query := (fixQuery st0).2
  let draft := st.draft.getD ""
  let context := st.context.getD ""
  let analysis := st.analysis.getD ""
  match llm (feedbackPrompt query context analysis draft) with
  | .error e => .error e
  | .ok feedback =>
      match llm (finalPrompt query draft feedback) with
      | .error e => .error e
      | .ok final =>
          .ok { st with
                  current_step := END_marker
                  feedback := some feedback
                  final_response := some final
                  agent_outputs :=
                    dictInsert
                      (dictInsert st.agent_outputs "critic" (criticFragment feedback))
                      "response" (responseFragment final) }

/-- The error surfaced when a stage raises: the graph node at which the run
halted, the underlying message, and the state as it stood when the stage
failed (later stages never run, so their fields are still unset there). -/
structure PipelineError where
  stage : String
  msg : String
  stateAtFailure : AgentState

/-- The initial state of a run for query `q`: `api.py` invokes the chain with
only `messages`; `main.py --test` additionally seeds `current_step` with
"retriever" and the accumulator fields with empty values.  All other keys are
absent. -/
def initState (q : String) : AgentState :=
  { messages := [q]
    current_step := "retriever"
    context := none
    query := none
    analysis := none
    draft := none
    feedback := none
    final_response := none
    research_summary := none
    final_answer := none
    agent_outputs := [] }

/-- `chain.invoke` on the compiled graph (`main.py` lines 284–302): the four
nodes run in the wired order retriever → researcher → writer → critic; an
exception in a node halts the run there and surfaces to the caller. -/
def execute (llm : Llm) (search : Search) (q : String) : Except PipelineError AgentState :=
  match researcher_agent llm (retriever_agent search (initState q)) with
  | .error e => .error ⟨"researcher", e, retriever_agent search (initState q)⟩
  | .ok st2 =>
      match writer_agent llm st2 with
      | .error e => .error ⟨"writer", e, st2⟩
      | .ok st3 =>
          match critic_agent llm st3 with
          | .error e => .error ⟨"critic", e, st3⟩
          | .ok st4 => .ok st4

/-- The successive states of a run: the initial state followed by the state
after each node that completed.  A failing node contributes nothing. -/
def execTrace (llm : Llm) (search : Search) (q : String) : List AgentState :=
  match researcher_agent llm (retriever_agent search (initState q)) with
  | .error _ => [initState q, retriever_agent search (initState q)]
  | .ok st2 =>
      match writer_agent llm st2 with
      | .error _ => [initState q, retriever_agent search (initState q), st2]
      | .ok st3 =>
          match critic_agent llm st3 with
          | .error _ => [initState q, retriever_agent search (initState q), st2, st3]
          | .ok st4 => [initState q, retriever_agent search (initState q), st2, st3, st4]

/-- The position of a node name in the linear stage order; `END` is last. -/
def stageRank (s : String) : Nat :=
  if s = "retriever" then 0
  else if s = "researcher" then 1
  else if s = "writer" then 2
  else if s = "critic" then 3
  else if s = END_marker then 4
  else 5

/-! ### Embedding of `src/processor.py` -/

/-- A loaded document page: `page_content` plus a metadata dict. -/
structure Doc where
  text : String
  metadata : List (String × String)
deriving DecidableEq

/-- The filesystem, loader registry and glob behaviour the processor relies
on, passed in as a record of black-box functions: `Path.exists`,
`Path.is_dir`, `Path.suffix.lower()`, `Path.name`, `loader.load()` (which may
raise) and `path.glob("**/*" + ext)`. -/
structure FsEnv where
  pathExists : String → Bool
  isDir : String → Bool
  suffixLower : String → String
  fileName : String → String
  load : String → Except String (List Doc)
  glob : String → String → List String

/-- The text splitter (`RecursiveCharacterTextSplitter.split_documents`), a
black box taking the configured chunk size and overlap. -/
abbrev Splitter := Nat → Nat → List Doc → List Doc

/-- `Processor.SUPPORTED_EXTENSIONS` (keys, in declaration order). -/
def SUPPORTED_EXTENSIONS : List String := [".pdf", ".txt", ".md"]

/-- `chunk_size=1000` passed to the splitter in `Processor.__init__`. -/
def CHUNK_SIZE : Nat := 1000

/-- `chunk_overlap=200` passed to the splitter in `Processor.__init__`. -/
def CHUNK_OVERLAP : Nat := 200

/-- The error raised inside the `try` block of `process_document`:
`FileNotFoundError` for a missing path, `ValueError` ("Unsupported file
type") for an extension outside the supported set, or a loader failure. -/
inductive IngestError where
  | notFound (path : String)
  | unsupportedType (ext : String)
  | loadFailure (msg : String)
deriving DecidableEq

/-- `document_type or 'general'`: the empty or absent type defaults to
"general". -/
def effectiveType (dt : Option String) : String :=
  if dt.getD "" = "" then "general" else dt.getD ""

/-- `doc.metadata.update({...})` in `process_document`: source path,
filename, effective type and processing timestamp. -/
def addMetadata (path fname dtype now : String) (d : Doc) : Doc :=
  { d with
      metadata :=
        dictInsert
          (dictInsert (dictInsert (dictInsert d.metadata "source" path) "filename" fname)
            "type" dtype)
          "date_processed" now }

/-- The body of the `try` block of `Processor.process_document`
(`processor.py` lines 32–65): check existence, resolve the loader by
lowercased extension, load, attach metadata, split with the configured
chunker.  On success it returns the batch of chunks handed to the single
`vectorstore.add_documents` call. -/
def process_document_attempt (env : FsEnv) (split : Splitter) (file_path : String)
    (document_type : Option String) (now : String) : Except IngestError (List Doc) :=
  if env.pathExists file_path = false then
    .error (.notFound file_path)
  else
    let ext := env.suffixLower file_path
    if SUPPORTED_EXTENSIONS.contains ext = false then
      .error (.unsupportedType ext)
    else
      match env.load file_path with
      | .error e => .error (.loadFailure e)
      | .ok documents =>
          .ok (split CHUNK_SIZE CHUNK_OVERLAP
            (documents.map
              (addMetadata file_path (env.fileName file_path) (effectiveType document_type) now)))

/-- The sequence of `vectorstore.add_documents` calls `process_document`
makes: exactly one on success, none when the `try` block raises first. -/
def indexAddCalls (env : FsEnv) (split : Splitter) (file_path : String)
    (document_type : Option String) (now : String) : List (List Doc) :=
  match process_document_attempt env split file_path document_type now with
  | .error _ => []
  | .ok splits => [splits]

/-- `Processor.process_document` as its callers see it: the surrounding
`except` clause turns any raised error into a printed message and `False`;
success returns `True`. -/
def process_document (env : FsEnv) (split : Splitter) (file_path : String)
    (document_type : Option String) (now : String) : Bool :=
  match process_document_attempt env split file_path document_type now with
  | .ok _ => true
  | .error _ => false

/-- The statistics dict of `process_directory`. -/
structure Stats where
  total : Nat
  successful : Nat
  failed : Nat
deriving DecidableEq

/-- The inner per-file loop of `process_directory`: one `successful` or
`failed` increment per file, driven by the boolean result of
`process_document`. -/
def processFiles (env : FsEnv) (split : Splitter) (dt : Option String) (now : String)
    (files : List String) (s : Stats) : Stats :=
  files.foldl
    (fun acc fp =>
      if process_document env split fp dt now then
        { acc with successful := acc.successful + 1 }
      else
        { acc with failed := acc.failed + 1 })
    s

/-- `Processor.process_directory` (`processor.py` lines 71–98): zeroed
statistics; a missing or non-directory path raises `NotADirectoryError`,
which the surrounding `except` swallows, returning the zeroed statistics;
otherwise, for each supported extension in declaration order, glob the
matching files, add their count to `total`, and process each file in turn. -/
def process_directory (env : FsEnv) (split : Splitter) (directory_path : String)
    (dt : Option String) (now : String) : Stats :=
  if env.pathExists directory_path && env.isDir directory_path then
    SUPPORTED_EXTENSIONS.foldl
      (fun acc ext =>
        let files := env.glob directory_path ext
        processFiles env split dt now files { acc with total := acc.total + files.length })
      ⟨0, 0, 0⟩
  else
    ⟨0, 0, 0⟩

/-! ### Basic lemmas about the embedded operations -/

/-- Inserting a key that is not yet present appends the pair at the end. -/
theorem dictInsert_eq_append (d : List (String × String)) (k v : String)
    (h : k ∉ d.map Prod.fst) :
    dictInsert d k v = d ++ [(k, v)] := by
  unfold dictInsert
  have hany : d.any (fun p => p.1 == k) = false := by
    rw [List.any_eq_false]
    intro p hp hbeq
    exact h (List.mem_map.mpr ⟨p, hp, by simpa using hbeq⟩)
  rw [hany]
  simp

/-- When the query field already holds the last message (as it always does
after the retriever ran), `fixQuery` changes nothing. -/
theorem fixQuery_of_query_eq (st : AgentState)
    (h : st.query = some (st.messages.getLast?.getD "")) :
    fixQuery st = (st, st.messages.getLast?.getD "") := by
  unfold fixQuery
  rw [h]
  simp only [Option.getD_some]
  split
  · next hq =>
      cases st
      simp only [AgentState.mk.injEq, Prod.mk.injEq]
      simp_all
  · rfl

/-- `fixQuery` only ever touches the query field: the outputs dict is kept. -/
theorem fixQuery_fst_agent_outputs (st : AgentState) :
    (fixQuery st).1.agent_outputs = st.agent_outputs := by
  unfold fixQuery; dsimp only; split <;> rfl

/-- `fixQuery` keeps the context field. -/
theorem fixQuery_fst_context (st : AgentState) : (fixQuery st).1.context = st.context := by
  unfold fixQuery; dsimp only; split <;> rfl

/-- `fixQuery` keeps the analysis field. -/
theorem fixQuery_fst_analysis (st : AgentState) : (fixQuery st).1.analysis = st.analysis := by
  unfold fixQuery; dsimp only; split <;> rfl

/-- `fixQuery` keeps the draft field. -/
theorem fixQuery_fst_draft (st : AgentState) : (fixQuery st).1.draft = st.draft := by
  unfold fixQuery; dsimp only; split <;> rfl

/-- `fixQuery` keeps the feedback field. -/
theorem fixQuery_fst_feedback (st : AgentState) : (fixQuery st).1.feedback = st.feedback := by
  unfold fixQuery; dsimp only; split <;> rfl

/-- `fixQuery` keeps the final response field. -/
theorem fixQuery_fst_final_response (st : AgentState) :
    (fixQuery st).1.final_response = st.final_response := by
  unfold fixQuery; dsimp only; split <;> rfl

/-- `fixQuery` keeps the messages. -/
theorem fixQuery_fst_messages (st : AgentState) : (fixQuery st).1.messages = st.messages := by
  unfold fixQuery; dsimp only; split <;> rfl

/-- `fixQuery` keeps the current step marker. -/
theorem fixQuery_fst_current_step (st : AgentState) :
    (fixQuery st).1.current_step = st.current_step := by
  unfold fixQuery; dsimp only; split <;> rfl

/-- Inversion of a successful researcher step. -/
theorem researcher_agent_ok (llm : Llm) (st0 st2 : AgentState)
    (h : researcher_agent llm st0 = .ok st2) :
    ∃ a, llm (analysisPrompt (fixQuery st0).2 ((fixQuery st0).1.context.getD "")) = .ok a ∧
      st2 = { (fixQuery st0).1 with
                current_step := "writer"
                analysis := some a
                agent_outputs := dictInsert (fixQuery st0).1.agent_outputs "research"
                  (researchFragment a (fixQuery st0).2) } := by
  simp only [researcher_agent] at h
  cases hl : llm (analysisPrompt (fixQuery st0).2 ((fixQuery st0).1.context.getD "")) with
  | error e => rw [hl] at h; cases h
  | ok a =>
      rw [hl] at h
      injection h with h
      exact ⟨a, rfl, h.symm⟩

/-- Inversion of a successful writer step. -/
theorem writer_agent_ok (llm : Llm) (st0 st3 : AgentState)
    (h : writer_agent llm st0 = .ok st3) :
    ∃ a, llm (draftPrompt (fixQuery st0).2 ((fixQuery st0).1.context.getD "")
            ((fixQuery st0).1.analysis.getD "")) = .ok a ∧
      st3 = { (fixQuery st0).1 with
                current_step := "critic"
                draft := some a
                agent_outputs := dictInsert (fixQuery st0).1.agent_outputs "writer"
                  (writerFragment a) } := by
  simp only [writer_agent] at h
  cases hl : llm (draftPrompt (fixQuery st0).2 ((fixQuery st0).1.context.getD "")
      ((fixQuery st0).1.analysis.getD "")) with
  | error e => rw [hl] at h; cases h
  | ok a =>
      rw [hl] at h
      injection h with h
      exact ⟨a, rfl, h.symm⟩

/-- Inversion of a successful critic step: two sequential inference calls. -/
theorem critic_agent_ok (llm : Llm) (st0 st4 : AgentState)
    (h : critic_agent llm st0 = .ok st4) :
    ∃ fb fin,
      llm (feedbackPrompt (fixQuery st0).2 ((fixQuery st0).1.context.getD "")
          ((fixQuery st0).1.analysis.getD "") ((fixQuery st0).1.draft.getD "")) = .ok fb ∧
      llm (finalPrompt (fixQuery st0).2 ((fixQuery st0).1.draft.getD "") fb) = .ok fin ∧
      st4 = { (fixQuery st0).1 with
                current_step := END_marker
                feedback := some fb
                final_response := some fin
                agent_outputs :=
                  dictInsert
                    (dictInsert (fixQuery st0).1.agent_outputs "critic" (criticFragment fb))
                    "response" (responseFragment fin) } := by
  simp only [critic_agent] at h
  cases hl : llm (feedbackPrompt (fixQuery st0).2 ((fixQuery st0).1.context.getD "")
      ((fixQuery st0).1.analysis.getD "") ((fixQuery st0).1.draft.getD "")) with
  | error e => rw [hl] at h; cases h
  | ok fb =>
      rw [hl] at h
      dsimp only at h
      cases hl2 : llm (finalPrompt (fixQuery st0).2 ((fixQuery st0).1.draft.getD "") fb) with
      | error e => rw [hl2] at h; cases h
      | ok fin =>
          rw [hl2] at h
          injection h with h
          exact ⟨fb, fin, rfl, hl2, h.symm⟩

/-- Inversion of a failing researcher step: only the inference call fails. -/
theorem researcher_agent_error (llm : Llm) (st0 : AgentState) (e : String)
    (h : researcher_agent llm st0 = .error e) :
    llm (analysisPrompt (fixQuery st0).2 ((fixQuery st0).1.context.getD "")) = .error e := by
  simp only [researcher_agent] at h
  cases hl : llm (analysisPrompt (fixQuery st0).2 ((fixQuery st0).1.context.getD "")) with
  | error e2 => rw [hl] at h; injection h with h; rw [h]
  | ok a => rw [hl] at h; cases h

/-- Inversion of a failing writer step: only the inference call fails. -/
theorem writer_agent_error (llm : Llm) (st0 : AgentState) (e : String)
    (h : writer_agent llm st0 = .error e) :
    llm (draftPrompt (fixQuery st0).2 ((fixQuery st0).1.context.getD "")
      ((fixQuery st0).1.analysis.getD "")) = .error e := by
  simp only [writer_agent] at h
  cases hl : llm (draftPrompt (fixQuery st0).2 ((fixQuery st0).1.context.getD "")
      ((fixQuery st0).1.analysis.getD "")) with
  | error e2 => rw [hl] at h; injection h with h; rw [h]
  | ok a => rw [hl] at h; cases h

/-- Inversion of a failing critic step: one of its two inference calls
fails. -/
theorem critic_agent_error (llm : Llm) (st0 : AgentState) (e : String)
    (h : critic_agent llm st0 = .error e) :
    llm (feedbackPrompt (fixQuery st0).2 ((fixQuery st0).1.context.getD "")
        ((fixQuery st0).1.analysis.getD "") ((fixQuery st0).1.draft.getD "")) = .error e ∨
    ∃ fb,
      llm (feedbackPrompt (fixQuery st0).2 ((fixQuery st0).1.context.getD "")
        ((fixQuery st0).1.analysis.getD "") ((fixQuery st0).1.draft.getD "")) = .ok fb ∧
      llm (finalPrompt (fixQuery st0).2 ((fixQuery st0).1.draft.getD "") fb) = .error e := by
  simp only [critic_agent] at h
  cases hl : llm (feedbackPrompt (fixQuery st0).2 ((fixQuery st0).1.context.getD "")
      ((fixQuery st0).1.analysis.getD "") ((fixQuery st0).1.draft.getD "")) with
  | error e2 => rw [hl] at h; injection h with h; exact .inl (by rw [h])
  | ok fb =>
      rw [hl] at h
      dsimp only at h
      cases hl2 : llm (finalPrompt (fixQuery st0).2 ((fixQuery st0).1.draft.getD "") fb) with
      | error e2 => rw [hl2] at h; injection h with h; exact .inr ⟨fb, rfl, by rw [← h]; exact hl2⟩
      | ok fin => rw [hl2] at h; cases h

/-- When the inference provider answers every prompt, a run succeeds. -/
theorem execute_ok_of_llm_total (llm : Llm) (search : Search) (q : String)
    (hllm : ∀ p, ∃ r, llm p = Except.ok r) :
    ∃ st, execute llm search q = Except.ok st := by
  unfold execute
  cases h2 : researcher_agent llm (retriever_agent search (initState q)) with
  | error e =>
      exfalso
      have hc := researcher_agent_error llm _ e h2
      obtain ⟨r, hr⟩ := hllm _
      rw [hc] at hr; cases hr
  | ok st2 =>
      dsimp only
      cases h3 : writer_agent llm st2 with
      | error e =>
          exfalso
          have hc := writer_agent_error llm _ e h3
          obtain ⟨r, hr⟩ := hllm _
          rw [hc] at hr; cases hr
      | ok st3 =>
          dsimp only
          cases h4 : critic_agent llm st3 with
          | error e =>
              exfalso
              rcases critic_agent_error llm _ e h4 with hc | ⟨fb, -, hc⟩ <;>
                · obtain ⟨r, hr⟩ := hllm _
                  rw [hc] at hr; cases hr
          | ok st4 => exact ⟨st4, rfl⟩

/-- Inversion of a successful run: each node succeeded in order, and the
trace lists the five successive states. -/
theorem execute_ok_inv (llm : Llm) (search : Search) (q : String) (st : AgentState)
    (h : execute llm search q = .ok st) :
    ∃ st2 st3,
      researcher_agent llm (retriever_agent search (initState q)) = .ok st2 ∧
      writer_agent llm st2 = .ok st3 ∧
      critic_agent llm st3 = .ok st ∧
      execTrace llm search q =
        [initState q, retriever_agent search (initState q), st2, st3, st] := by
  unfold execute at h
  cases h2 : researcher_agent llm (retriever_agent search (initState q)) with
  | error e => rw [h2] at h; cases h
  | ok st2 =>
      rw [h2] at h
      dsimp only at h
      cases h3 : writer_agent llm st2 with
      | error e => rw [h3] at h; cases h
      | ok st3 =>
          rw [h3] at h
          dsimp only at h
          cases h4 : critic_agent llm st3 with
          | error e => rw [h4] at h; cases h
          | ok st4 =>
              rw [h4] at h
              injection h with h
              subst h
              refine ⟨st2, st3, rfl, h3, h4, ?_⟩
              unfold execTrace
              rw [h2]
              dsimp only
              rw [h3]
              dsimp only
              rw [h4]

/-- Unfolding the per-file loop one file at a time. -/
theorem processFiles_cons (env : FsEnv) (split : Splitter) (dt : Option String) (now : String)
    (f : String) (fs : List String) (s : Stats) :
    processFiles env split dt now (f :: fs) s =
      processFiles env split dt now fs
        (if process_document env split f dt now then
          { s with successful := s.successful + 1 }
         else
          { s with failed := s.failed + 1 }) := rfl

/-- The per-file loop counts, independently for every file in the list, a
success or a failure; it never stops early and never touches the total. -/
theorem processFiles_spec (env : FsEnv) (split : Splitter) (dt : Option String) (now : String)
    (files : List String) (s : Stats) :
    processFiles env split dt now files s =
      ⟨s.total,
       s.successful + (files.filter (fun fp => process_document env split fp dt now)).length,
       s.failed + (files.filter (fun fp => !process_document env split fp dt now)).length⟩ := by
  induction files generalizing s with
  | nil => rfl
  | cons f fs ih =>
      rw [processFiles_cons]
      cases hf : process_document env split f dt now with
      | false =>
          rw [if_neg Bool.false_ne_true, ih]
          simp [List.filter_cons, hf, Stats.mk.injEq]
          try omega
      | true =>
          rw [if_pos rfl, ih]
          simp [List.filter_cons, hf, Stats.mk.injEq]
          try omega

/-- The directory fold over an arbitrary extension list, in closed form. -/
theorem dirFold_spec (env : FsEnv) (split : Splitter) (dt : Option String) (now : String)
    (dir : String) (exts : List String) (s : Stats) :
    exts.foldl
      (fun acc ext =>
        processFiles env split dt now (env.glob dir ext)
          { acc with total := acc.total + (env.glob dir ext).length }) s =
      ⟨s.total + ((exts.map (env.glob dir)).flatten).length,
       s.successful + (((exts.map (env.glob dir)).flatten).filter
          (fun fp => process_document env split fp dt now)).length,
       s.failed + (((exts.map (env.glob dir)).flatten).filter
          (fun fp => !process_document env split fp dt now)).length⟩ := by
  induction exts generalizing s with
  | nil => simp
  | cons e es ih =>
      rw [List.foldl_cons, processFiles_spec, ih]
      simp only [List.map_cons, List.flatten, List.flatten_cons, List.filter_append,
        List.length_append, Stats.mk.injEq]
      refine ⟨?_, ?_, ?_⟩ <;> omega

/-- `process_directory` on a valid directory, in closed form: every file the
supported-extension globs return is counted exactly once, as a success or as
a failure. -/
theorem process_directory_eq (env : FsEnv) (split : Splitter) (dir : String)
    (dt : Option String) (now : String)
    (h : (env.pathExists dir && env.isDir dir) = true) :
    process_directory env split dir dt now =
      ⟨((SUPPORTED_EXTENSIONS.map (env.glob dir)).flatten).length,
       (((SUPPORTED_EXTENSIONS.map (env.glob dir)).flatten).filter
          (fun fp => process_document env split fp dt now)).length,
       (((SUPPORTED_EXTENSIONS.map (env.glob dir)).flatten).filter
          (fun fp => !process_document env split fp dt now)).length⟩ := by
  unfold process_directory
  rw [if_pos h, dirFold_spec]
  simp

/-- A list splits into the part satisfying a predicate and the rest. -/
theorem length_filter_partition (l : List String) (p : String → Bool) :
    (l.filter p).length + (l.filter (fun a => !(p a))).length = l.length := by
  induction l with
  | nil => rfl
  | cons a as ih =>
      cases hp : p a <;> simp [List.filter_cons, hp] <;> omega

/-! ### Claims -/

/-- Claim C1: a successful pipeline execution produces stage outputs whose
keys, in insertion order, are exactly retriever, research, writer, critic,
response, with the retriever, researcher, writer and critic nodes appending
their entries (the critic appending two) in execution order. -/
theorem c1_stage_output_keys (llm : Llm) (search : Search) (q : String) (st : AgentState)
    (h : execute llm search q = Except.ok st) :
    st.agent_outputs.map Prod.fst = ["retriever", "research", "writer", "critic", "response"] := by
  obtain ⟨st2, st3, h2, h3, h4, -⟩ := execute_ok_inv llm search q st h
  obtain ⟨a, -, hst2⟩ := researcher_agent_ok llm _ st2 h2
  obtain ⟨d, -, hst3⟩ := writer_agent_ok llm _ st3 h3
  obtain ⟨fb, fin, -, -, hst4⟩ := critic_agent_ok llm _ st h4
  have k1 : (retriever_agent search (initState q)).agent_outputs.map Prod.fst
      = ["retriever"] := rfl
  have k2 : st2.agent_outputs.map Prod.fst = ["retriever", "research"] := by
    rw [hst2]
    dsimp only
    rw [fixQuery_fst_agent_outputs]
    rw [dictInsert_eq_append _ _ _ (by rw [k1]; decide)]
    rw [List.map_append, k1]
    rfl
  have k3 : st3.agent_outputs.map Prod.fst = ["retriever", "research", "writer"] := by
    rw [hst3]
    dsimp only
    rw [fixQuery_fst_agent_outputs]
    rw [dictInsert_eq_append _ _ _ (by rw [k2]; decide)]
    rw [List.map_append, k2]
    rfl
  rw [hst4]
  dsimp only
  rw [fixQuery_fst_agent_outputs]
  rw [dictInsert_eq_append st3.agent_outputs "critic" (criticFragment fb) (by rw [k3]; decide)]
  rw [dictInsert_eq_append _ "response" _
    (by rw [List.map_append, k3]; simp only [List.map_cons, List.map_nil]; decide)]
  rw [List.map_append, List.map_append, k3]
  rfl

/-- A stub inference provider that always answers "A". -/
def wLlm : Llm := fun _ => Except.ok "A"

/-- A stub inference provider that always raises. -/
def wLlmFail : Llm := fun _ => Except.error "boom"

/-- A stub index returning a single passage. -/
def wSearch : Search := fun _ _ => ["Paris is the capital of France."]

/-- A stub index returning no passages. -/
def wSearchEmpty : Search := fun _ _ => []

/-- The final state of a concrete successful run. -/
def wState : AgentState :=
  ((execute wLlm wSearch "Q").toOption).getD (initState "Q")

/-- Witness for C1: the key order at a concrete run. -/
theorem c1_witness :
    wState.agent_outputs.map Prod.fst
      = ["retriever", "research", "writer", "critic", "response"] :=
  c1_stage_output_keys wLlm wSearch "Q" wState rfl

/-- Claim C2: the retrieval stage writes as context the passages the index
returns for the query with k fixed to 3, joined in rank order by a blank
line; fewer than three passages are used as returned, and zero passages
yield the empty context rather than an error. -/
theorem c2_retrieved_context (search : Search) (st : AgentState) (q : String)
    (h : st.messages.getLast? = some q) :
    (retriever_agent search st).context
        = some (String.intercalate "\n\n" (search q 3)) ∧
    (search q 3 = [] → (retriever_agent search st).context = some "") := by
  have hq : st.messages.getLast?.getD "" = q := by rw [h]; rfl
  constructor
  · show some (String.intercalate "\n\n" (search (st.messages.getLast?.getD "") 3)) = _
    rw [hq]
  · intro hz
    show some (String.intercalate "\n\n" (search (st.messages.getLast?.getD "") 3)) = _
    rw [hq, hz]
    rfl

/-- Witness for C2 at a concrete state and index. -/
theorem c2_witness :
    (initState "Q").messages.getLast? = some "Q" ∧
    ((retriever_agent wSearch (initState "Q")).context
        = some (String.intercalate "\n\n" (wSearch "Q" 3)) ∧
      (wSearch "Q" 3 = [] →
        (retriever_agent wSearch (initState "Q")).context = some "")) :=
  ⟨rfl, c2_retrieved_context wSearch (initState "Q") "Q" rfl⟩

/-- Claim C3: when the index returns no passages and the provider answers
every prompt with a non-empty string, the run still completes to the
terminal state with an empty retrieved context and a non-empty final
answer. -/
theorem c3_zero_result_completes (llm : Llm) (search : Search) (q : String)
    (hllm : ∀ p, ∃ r, llm p = Except.ok r ∧ r ≠ "")
    (hzero : search q 3 = []) :
    ∃ st ans, execute llm search q = Except.ok st ∧
      st.current_step = END_marker ∧
      st.context = some "" ∧
      st.final_response = some ans ∧ ans ≠ "" := by
  obtain ⟨st, hE⟩ := execute_ok_of_llm_total llm search q
    (fun p => (hllm p).imp (fun r hr => hr.1))
  obtain ⟨st2, st3, h2, h3, h4, -⟩ := execute_ok_inv llm search q st hE
  obtain ⟨a, -, hst2⟩ := researcher_agent_ok llm _ st2 h2
  obtain ⟨d, -, hst3⟩ := writer_agent_ok llm _ st3 h3
  obtain ⟨fb, fin, -, hfin, hst4⟩ := critic_agent_ok llm _ st h4
  have hfinne : fin ≠ "" := by
    obtain ⟨r, hr, hrne⟩ := hllm (finalPrompt (fixQuery st3).2 ((fixQuery st3).1.draft.getD "") fb)
    rw [hfin] at hr
    injection hr with hr
    rw [← hr] at hrne
    exact hrne
  refine ⟨st, fin, hE, ?_, ?_, ?_, hfinne⟩
  · rw [hst4]
  · have hc1 : (retriever_agent search (initState q)).context
        = some (String.intercalate "\n\n" (search q 3)) := rfl
    have hc2 : st2.context = (retriever_agent search (initState q)).context := by
      rw [hst2]; dsimp only; rw [fixQuery_fst_context]
    have hc3 : st3.context = st2.context := by
      rw [hst3]; dsimp only; rw [fixQuery_fst_context]
    have hc4 : st.context = st3.context := by
      rw [hst4]; dsimp only; rw [fixQuery_fst_context]
    rw [hc4, hc3, hc2, hc1, hzero]
    rfl
  · rw [hst4]

/-- Witness for C3 with a stub provider and an empty index. -/
theorem c3_witness :
    wSearchEmpty "Q" 3 = [] ∧
    ∃ st ans, execute wLlm wSearchEmpty "Q" = Except.ok st ∧
      st.current_step = END_marker ∧
      st.context = some "" ∧
      st.final_response = some ans ∧ ans ≠ "" :=
  ⟨rfl, c3_zero_result_completes wLlm wSearchEmpty "Q"
    (fun _ => ⟨"A", rfl, by decide⟩) rfl⟩

/-- Claim C4: when the inference provider fails during the analysis stage,
the run halts there: the surfaced error names the researcher (analysis)
node, no later node runs, and the draft, feedback and final response fields
of the state at failure are unpopulated. -/
theorem c4_analysis_failure_halts (llm : Llm) (search : Search) (q e : String)
    (hfail : ∀ p, llm p = Except.error e) :
    ∃ err : PipelineError, execute llm search q = Except.error err ∧
      err.stage = "researcher" ∧
      err.stateAtFailure.draft = none ∧
      err.stateAtFailure.feedback = none ∧
      err.stateAtFailure.final_response = none := by
  have hr : researcher_agent llm (retriever_agent search (initState q)) = Except.error e := by
    simp only [researcher_agent]
    rw [hfail]
  refine ⟨⟨"researcher", e, retriever_agent search (initState q)⟩, ?_, rfl, rfl, rfl, rfl⟩
  unfold execute
  rw [hr]

/-- Witness for C4 with a failing stub provider. -/
theorem c4_witness :
    ∃ err : PipelineError, execute wLlmFail wSearch "Q" = Except.error err ∧
      err.stage = "researcher" ∧
      err.stateAtFailure.draft = none ∧
      err.stateAtFailure.feedback = none ∧
      err.stateAtFailure.final_response = none :=
  c4_analysis_failure_halts wLlmFail wSearch "Q" "boom" (fun _ => rfl)

/-- Claim C8: on a successful run the current step advances through the
linear order retriever, researcher, writer, critic, END, strictly
monotonically, with the terminal marker last and nothing after it. -/
theorem c8_monotonic_stage_order (llm : Llm) (search : Search) (q : String) (st : AgentState)
    (h : execute llm search q = Except.ok st) :
    (execTrace llm search q).map AgentState.current_step
        = ["retriever", "researcher", "writer", "critic", END_marker] ∧
    List.Chain' (fun a b => stageRank a < stageRank b)
      ((execTrace llm search q).map AgentState.current_step) := by
  obtain ⟨st2, st3, h2, h3, h4, htr⟩ := execute_ok_inv llm search q st h
  obtain ⟨a, -, hst2⟩ := researcher_agent_ok llm _ st2 h2
  obtain ⟨d, -, hst3⟩ := writer_agent_ok llm _ st3 h3
  obtain ⟨fb, fin, -, -, hst4⟩ := critic_agent_ok llm _ st h4
  have hmap : (execTrace llm search q).map AgentState.current_step
      = ["retriever", "researcher", "writer", "critic", END_marker] := by
    rw [htr, hst4, hst3, hst2]
    rfl
  refine ⟨hmap, ?_⟩
  rw [hmap]
  simp [List.chain'_cons, stageRank, END_marker]

/-- Witness for C8 at a concrete run. -/
theorem c8_witness :
    (execTrace wLlm wSearch "Q").map AgentState.current_step
        = ["retriever", "researcher", "writer", "critic", END_marker] ∧
    List.Chain' (fun a b => stageRank a < stageRank b)
      ((execTrace wLlm wSearch "Q").map AgentState.current_step) :=
  c8_monotonic_stage_order wLlm wSearch "Q" wState rfl

/-- Counterexample for C9 as stated: at a concrete successful run, the
current step field — a field of the pipeline state — is written by the
retriever stage and re-written with a different value by the researcher
stage, and the two entries the critic appends are named "critic" and
"response": no entry named "critique" exists. -/
theorem c9_counterexample :
    ((execTrace wLlm wSearch "Q").map AgentState.current_step)[1]? = some "researcher" ∧
    ((execTrace wLlm wSearch "Q").map AgentState.current_step)[2]? = some "writer" ∧
    ((execute wLlm wSearch "Q").toOption.map (fun st => st.agent_outputs.map Prod.fst))
        = some ["retriever", "research", "writer", "critic", "response"] ∧
    ((execute wLlm wSearch "Q").toOption.map
        (fun st => decide ("critique" ∈ st.agent_outputs.map Prod.fst))) = some false := by
  refine ⟨rfl, rfl, rfl, rfl⟩

/-- Claim C9 (amended): every data field of the pipeline state (query,
context, analysis, draft, feedback, final response) keeps the value first
written to it for the rest of the run — but the current step field is
re-written by every stage, and is excluded; stage output keys are unique,
ordered by execution order, each stage appends exactly one entry except the
critic which appends two, named "critic" and "response", and no entry is
ever overwritten once written. -/
theorem c9_amended_write_once (llm : Llm) (search : Search) (q : String) (st : AgentState)
    (h : execute llm search q = Except.ok st) :
    ∃ s1 s2 s3,
      execTrace llm search q = [initState q, s1, s2, s3, st] ∧
      s2.query = s1.query ∧ s3.query = s2.query ∧ st.query = s3.query ∧
      s2.context = s1.context ∧ s3.context = s2.context ∧ st.context = s3.context ∧
      s1.analysis = none ∧ s3.analysis = s2.analysis ∧ st.analysis = s3.analysis ∧
      s2.draft = none ∧ st.draft = s3.draft ∧
      s3.feedback = none ∧ s3.final_response = none ∧
      (∃ v1, s1.agent_outputs = [("retriever", v1)]) ∧
      (∃ v2, s2.agent_outputs = s1.agent_outputs ++ [("research", v2)]) ∧
      (∃ v3, s3.agent_outputs = s2.agent_outputs ++ [("writer", v3)]) ∧
      (∃ v4 v5, st.agent_outputs = s3.agent_outputs ++ [("critic", v4), ("response", v5)]) ∧
      (st.agent_outputs.map Prod.fst).Nodup := by
  obtain ⟨st2, st3, h2, h3, h4, htr⟩ := execute_ok_inv llm search q st h
  obtain ⟨a, -, hst2⟩ := researcher_agent_ok llm _ st2 h2
  obtain ⟨d, -, hst3⟩ := writer_agent_ok llm _ st3 h3
  obtain ⟨fb, fin, -, -, hst4⟩ := critic_agent_ok llm _ st h4
  have f1 : (fixQuery (retriever_agent search (initState q))).1
      = retriever_agent search (initState q) := by
    rw [fixQuery_of_query_eq _ rfl]
  have hq2 : st2.query = some (st2.messages.getLast?.getD "") := by
    rw [hst2]; dsimp only; rw [f1]; rfl
  have f2 : (fixQuery st2).1 = st2 := by rw [fixQuery_of_query_eq st2 hq2]
  have hq3 : st3.query = some (st3.messages.getLast?.getD "") := by
    rw [hst3]; dsimp only; rw [f2]; exact hq2
  have f3 : (fixQuery st3).1 = st3 := by rw [fixQuery_of_query_eq st3 hq3]
  have k1 : (retriever_agent search (initState q)).agent_outputs.map Prod.fst
      = ["retriever"] := rfl
  have ha2 : st2.agent_outputs = (retriever_agent search (initState q)).agent_outputs
      ++ [("research", researchFragment a (fixQuery (retriever_agent search (initState q))).2)] := by
    rw [hst2]; dsimp only; rw [f1]
    exact dictInsert_eq_append _ _ _ (by rw [k1]; decide)
  have k2 : st2.agent_outputs.map Prod.fst = ["retriever", "research"] := by
    rw [ha2, List.map_append, k1]; rfl
  have ha3 : st3.agent_outputs = st2.agent_outputs ++ [("writer", writerFragment d)] := by
    rw [hst3]; dsimp only; rw [f2]
    exact dictInsert_eq_append _ _ _ (by rw [k2]; decide)
  have k3 : st3.agent_outputs.map Prod.fst = ["retriever", "research", "writer"] := by
    rw [ha3, List.map_append, k2]; rfl
  have ha4 : st.agent_outputs = st3.agent_outputs
      ++ [("critic", criticFragment fb), ("response", responseFragment fin)] := by
    rw [hst4]; dsimp only; rw [f3]
    rw [dictInsert_eq_append st3.agent_outputs "critic" (criticFragment fb) (by rw [k3]; decide)]
    rw [dictInsert_eq_append _ "response" _
      (by rw [List.map_append, k3]; simp only [List.map_cons, List.map_nil]; decide)]
    rw [List.append_assoc]
    rfl
  have k4 : st.agent_outputs.map Prod.fst
      = ["retriever", "research", "writer", "critic", "response"] := by
    rw [ha4, List.map_append, k3]; rfl
  have hfb2 : st2.feedback = none := by rw [hst2]; dsimp only; rw [f1]; rfl
  have hfr2 : st2.final_response = none := by rw [hst2]; dsimp only; rw [f1]; rfl
  refine ⟨retriever_agent search (initState q), st2, st3, htr,
    ?_, ?_, ?_, ?_, ?_, ?_, rfl, ?_, ?_, ?_, ?_, ?_, ?_,
    ⟨_, rfl⟩, ⟨_, ha2⟩, ⟨_, ha3⟩, ⟨_, _, ha4⟩, by rw [k4]; decide⟩
  · rw [hst2]; dsimp only; rw [f1]
  · rw [hst3]; dsimp only; rw [f2]
  · rw [hst4]; dsimp only; rw [f3]
  · rw [hst2]; dsimp only; rw [f1]
  · rw [hst3]; dsimp only; rw [f2]
  · rw [hst4]; dsimp only; rw [f3]
  · rw [hst3]; dsimp only; rw [f2]
  · rw [hst4]; dsimp only; rw [f3]
  · rw [hst2]; dsimp only; rw [f1]; rfl
  · rw [hst4]; dsimp only; rw [f3]
  · rw [hst3]; dsimp only; rw [f2]; exact hfb2
  · rw [hst3]; dsimp only; rw [f2]; exact hfr2

/-- Witness for the amended C9 at a concrete run. -/
theorem c9_amended_witness :
    ∃ s1 s2 s3,
      execTrace wLlm wSearch "Q" = [initState "Q", s1, s2, s3, wState] ∧
      s2.query = s1.query ∧ s3.query = s2.query ∧ wState.query = s3.query ∧
      s2.context = s1.context ∧ s3.context = s2.context ∧ wState.context = s3.context ∧
      s1.analysis = none ∧ s3.analysis = s2.analysis ∧ wState.analysis = s3.analysis ∧
      s2.draft = none ∧ wState.draft = s3.draft ∧
      s3.feedback = none ∧ s3.final_response = none ∧
      (∃ v1, s1.agent_outputs = [("retriever", v1)]) ∧
      (∃ v2, s2.agent_outputs = s1.agent_outputs ++ [("research", v2)]) ∧
      (∃ v3, s3.agent_outputs = s2.agent_outputs ++ [("writer", v3)]) ∧
      (∃ v4 v5, wState.agent_outputs = s3.agent_outputs ++ [("critic", v4), ("response", v5)]) ∧
      (wState.agent_outputs.map Prod.fst).Nodup :=
  c9_amended_write_once wLlm wSearch "Q" wState rfl

/-- Claim C5: a successfully ingested file is chunked with chunk size 1000
and overlap 200 (characters) and all resulting chunks are submitted to the
index in a single batch call. -/
theorem c5_chunking_single_batch (env : FsEnv) (split : Splitter) (fp : String)
    (dt : Option String) (now : String) (docs : List Doc)
    (hex : env.pathExists fp = true)
    (hext : SUPPORTED_EXTENSIONS.contains (env.suffixLower fp) = true)
    (hload : env.load fp = Except.ok docs) :
    indexAddCalls env split fp dt now =
      [split CHUNK_SIZE CHUNK_OVERLAP
        (docs.map (addMetadata fp (env.fileName fp) (effectiveType dt) now))] ∧
    CHUNK_SIZE = 1000 ∧ CHUNK_OVERLAP = 200 := by
  refine ⟨?_, rfl, rfl⟩
  simp only [indexAddCalls, process_document_attempt]
  rw [hex, hext, hload]
  simp

/-- A stub filesystem for the ingestion witnesses: directory "docs" holds
three text files, of which "bad.txt" fails to load; "missing.txt" does not
exist; "weird.xyz" has an unsupported extension. -/
def wEnv : FsEnv :=
  { pathExists := fun p => !(p == "missing.txt") && !(p == "nodir")
    isDir := fun p => p == "docs"
    suffixLower := fun p => if p == "weird.xyz" then ".xyz" else ".txt"
    fileName := fun p => p
    load := fun p =>
      if p == "bad.txt" then Except.error "corrupt" else Except.ok [⟨"hello world", []⟩]
    glob := fun dir ext =>
      if dir == "docs" && ext == ".txt" then ["good.txt", "bad.txt", "ok.txt"] else [] }

/-- A stub splitter that keeps the documents as they are. -/
def wSplit : Splitter := fun _ _ docs => docs

/-- Witness for C5 at a concrete file. -/
theorem c5_witness :
    wEnv.pathExists "good.txt" = true ∧
    SUPPORTED_EXTENSIONS.contains (wEnv.suffixLower "good.txt") = true ∧
    wEnv.load "good.txt" = Except.ok [⟨"hello world", []⟩] ∧
    (indexAddCalls wEnv wSplit "good.txt" none "now" =
      [wSplit CHUNK_SIZE CHUNK_OVERLAP
        ([⟨"hello world", ([] : List (String × String))⟩].map
          (addMetadata "good.txt" (wEnv.fileName "good.txt") (effectiveType none) "now"))] ∧
      CHUNK_SIZE = 1000 ∧ CHUNK_OVERLAP = 200) :=
  ⟨rfl, rfl, rfl,
    c5_chunking_single_batch wEnv wSplit "good.txt" none "now" [⟨"hello world", []⟩]
      rfl rfl rfl⟩

/-- Claim C6: during directory ingestion every globbed file is counted
independently as a success or a failure — a failure of one file is recorded
in the failed statistic and processing continues with the remaining files;
the directory call is a total function, so no per-file error escapes it. -/
theorem c6_per_file_failure_counted (env : FsEnv) (split : Splitter) (dir : String)
    (dt : Option String) (now : String)
    (hdir : (env.pathExists dir && env.isDir dir) = true) :
    (process_directory env split dir dt now).failed =
      (((SUPPORTED_EXTENSIONS.map (env.glob dir)).flatten).filter
        (fun fp => !process_document env split fp dt now)).length ∧
    (process_directory env split dir dt now).successful =
      (((SUPPORTED_EXTENSIONS.map (env.glob dir)).flatten).filter
        (fun fp => process_document env split fp dt now)).length ∧
    (process_directory env split dir dt now).total =
      ((SUPPORTED_EXTENSIONS.map (env.glob dir)).flatten).length := by
  rw [process_directory_eq env split dir dt now hdir]
  exact ⟨rfl, rfl, rfl⟩

/-- Witness for C6: a directory with one corrupt file among three gives
statistics counting the failure while the other two succeed. -/
theorem c6_witness :
    (wEnv.pathExists "docs" && wEnv.isDir "docs") = true ∧
    ((process_directory wEnv wSplit "docs" none "now").failed =
      (((SUPPORTED_EXTENSIONS.map (wEnv.glob "docs")).flatten).filter
        (fun fp => !process_document wEnv wSplit fp none "now")).length ∧
    (process_directory wEnv wSplit "docs" none "now").successful =
      (((SUPPORTED_EXTENSIONS.map (wEnv.glob "docs")).flatten).filter
        (fun fp => process_document wEnv wSplit fp none "now")).length ∧
    (process_directory wEnv wSplit "docs" none "now").total =
      ((SUPPORTED_EXTENSIONS.map (wEnv.glob "docs")).flatten).length) ∧
    process_directory wEnv wSplit "docs" none "now" = ⟨3, 2, 1⟩ :=
  ⟨rfl, c6_per_file_failure_counted wEnv wSplit "docs" none "now" rfl, rfl⟩

/-- Claim C7: requesting a single file directly fails with the not-found
error when the path does not exist and with the unsupported-type error when
its extension is outside the supported set {.pdf, .txt, .md}; during a
directory scan only files globbed for the supported extensions enter the
statistics at all, so unsupported files are skipped and never counted as
failures. -/
theorem c7_unsupported_and_missing (env : FsEnv) (split : Splitter) (dt : Option String)
    (now : String) (fp dir : String) :
    (env.pathExists fp = false →
      process_document_attempt env split fp dt now = Except.error (.notFound fp)) ∧
    (env.pathExists fp = true →
      SUPPORTED_EXTENSIONS.contains (env.suffixLower fp) = false →
      process_document_attempt env split fp dt now
        = Except.error (.unsupportedType (env.suffixLower fp))) ∧
    ((env.pathExists dir && env.isDir dir) = true →
      (process_directory env split dir dt now).total =
        ((SUPPORTED_EXTENSIONS.map (env.glob dir)).flatten).length ∧
      (process_directory env split dir dt now).failed =
        (((SUPPORTED_EXTENSIONS.map (env.glob dir)).flatten).filter
          (fun f2 => !process_document env split f2 dt now)).length) := by
  refine ⟨?_, ?_, ?_⟩
  · intro hex
    simp only [process_document_attempt]
    rw [hex]
    simp
  · intro hex hext
    simp only [process_document_attempt]
    rw [hex, hext]
    simp
  · intro hdir
    rw [process_directory_eq env split dir dt now hdir]
    exact ⟨rfl, rfl⟩

/-- Witness for C7: a missing path, a file with an unsupported extension,
and a directory scan over the stub filesystem. -/
theorem c7_witness :
    (wEnv.pathExists "missing.txt" = false ∧
      process_document_attempt wEnv wSplit "missing.txt" none "now"
        = Except.error (.notFound "missing.txt")) ∧
    (wEnv.pathExists "weird.xyz" = true ∧
      SUPPORTED_EXTENSIONS.contains (wEnv.suffixLower "weird.xyz") = false ∧
      process_document_attempt wEnv wSplit "weird.xyz" none "now"
        = Except.error (.unsupportedType (wEnv.suffixLower "weird.xyz"))) ∧
    ((wEnv.pathExists "docs" && wEnv.isDir "docs") = true ∧
      (process_directory wEnv wSplit "docs" none "now").total =
        ((SUPPORTED_EXTENSIONS.map (wEnv.glob "docs")).flatten).length ∧
      (process_directory wEnv wSplit "docs" none "now").failed =
        (((SUPPORTED_EXTENSIONS.map (wEnv.glob "docs")).flatten).filter
          (fun f2 => !process_document wEnv wSplit f2 none "now")).length) :=
  ⟨⟨rfl, (c7_unsupported_and_missing wEnv wSplit none "now" "missing.txt" "docs").1 rfl⟩,
   ⟨rfl, rfl,
    (c7_unsupported_and_missing wEnv wSplit none "now" "weird.xyz" "docs").2.1 rfl rfl⟩,
   ⟨rfl,
    (c7_unsupported_and_missing wEnv wSplit none "now" "good.txt" "docs").2.2 rfl⟩⟩

/-- Claim C10: `process_directory` is a total function whose statistics
always satisfy total = successful + failed, and a missing or non-directory
path yields all-zero statistics instead of an error. -/
theorem c10_directory_stats_invariant (env : FsEnv) (split : Splitter) (dir : String)
    (dt : Option String) (now : String) :
    ((process_directory env split dir dt now).total
       = (process_directory env split dir dt now).successful
         + (process_directory env split dir dt now).failed) ∧
    ((env.pathExists dir && env.isDir dir) = false →
      process_directory env split dir dt now = ⟨0, 0, 0⟩) := by
  constructor
  · cases hdir : env.pathExists dir && env.isDir dir with
    | true =>
        rw [process_directory_eq env split dir dt now hdir]
        exact (length_filter_partition _ _).symm
    | false =>
        unfold process_directory
        rw [hdir, if_neg Bool.false_ne_true]
        rfl
  · intro hdir
    unfold process_directory
    rw [hdir, if_neg Bool.false_ne_true]

/-- Witness for C10 at a path that is not a directory. -/
theorem c10_witness :
    ((process_directory wEnv wSplit "nodir" none "now").total
       = (process_directory wEnv wSplit "nodir" none "now").successful
         + (process_directory wEnv wSplit "nodir" none "now").failed) ∧
    (wEnv.pathExists "nodir" && wEnv.isDir "nodir") = false ∧
    process_directory wEnv wSplit "nodir" none "now" = ⟨0, 0, 0⟩ :=
  ⟨(c10_directory_stats_invariant wEnv wSplit "nodir" none "now").1, rfl,
   (c10_directory_stats_invariant wEnv wSplit "nodir" none "now").2 rfl⟩

end AIKA
